import Mathlib

/-
Verification of the attendance aggregation and notification engine
(`app.py`).  The data store and messaging gateway are modelled as an
explicit environment; date/time is an explicit `today` string parameter
(the code computes it with `strftime` using the pattern DD_MM_YYYY).
Row values are `Option String` (`none` models a JSON null / missing
value); rows are association lists preserving column iteration order.
Floating-point percentage arithmetic is modelled over `ℚ`, and the
Python `:.2f` rendering as rounding to the nearest hundredth.
-/

namespace AttendanceApp

/-- Row values: a cell is either a string or null. -/
abbrev Val := Option String

/-- A fetched row: ordered association list of column name to value. -/
abbrev Row := List (String × Val)

/-- Python `dict.get(k)`: the value at key `k`, or null when the key is
missing (first occurrence wins; real dicts have unique keys). -/
def pyGet (r : Row) (k : String) : Val :=
  match r.find? (fun kv => kv.1 == k) with
  | some kv => kv.2
  | none => none

/-- The fixed subject-table list from the source (`SUBJECT_TABLES`). -/
def SUBJECT_TABLES : List String :=
  ["advance_engineering_mathematics_i", "data_structures_and_algorithms",
   "data_structures_and_algorithms_lab", "digital_electronics",
   "digital_electronics_lab", "object_oriented_programming",
   "object_oriented_programming_lab", "software_engineering",
   "software_engineering_lab", "technical_communication"]

/-- Python `str.title()`: a letter is uppercased when the previous
character is not a letter, lowercased otherwise. -/
def titleCase (s : String) : String :=
  String.mk ((s.toList.foldl
    (fun (acc : List Char × Bool) c =>
      (((if acc.2 then c.toLower else c.toUpper) :: acc.1), c.isAlpha))
    (([] : List Char), false)).1.reverse)

/-- `format_subject_name`: every underscore becomes a space (the
single-character `replace` of the source), then title case. -/
def format_subject_name (table_name : String) : String :=
  titleCase (String.mk (table_name.toList.map (fun c => if c = '_' then ' ' else c)))

/-- The dated-column detector from the source: the column key holds
exactly two underscore characters (`column.count('_') == 2`). -/
def is_date_col (c : String) : Bool :=
  c.toList.count '_' == 2

/-- A recognized mark: the cell value is exactly the string P or A. -/
def recognized (v : Val) : Bool :=
  v == some "P" || v == some "A"

/-- The student identity record (`studentsrecord` columns the code
reads: `Name`, `whatsapp_no`). -/
structure StudentInfo where
  name : Val
  whatsapp_no : Val
deriving DecidableEq

/-- The external record store: the `studentsrecord` table as an ordered
list of (roll number, identity) rows, and per-subject row fetch, where
`none` models both a missing row and a transient per-source failure
(the code catches either and continues). -/
structure Env where
  students : List (String × StudentInfo)
  fetchRow : String → String → Option Row

/-- Identity lookup (`supabase.table('studentsrecord')...eq('Roll_No',
roll).single()`): first row with the given roll number. -/
def Env.identity (env : Env) (roll : String) : Option StudentInfo :=
  (env.students.find? (fun s => s.1 == roll)).map (fun s => s.2)

/-- Count of present marks in one row: dated columns whose value is P. -/
def rowPresent (row : Row) : Nat :=
  (row.filter (fun kv => is_date_col kv.1 && kv.2 == some "P")).length

/-- Count of counted marks in one row: dated columns whose value is a
recognized mark. -/
def rowTotal (row : Row) : Nat :=
  (row.filter (fun kv => is_date_col kv.1 && recognized kv.2)).length

/-- Per-table contribution of the aggregation loop body: (present,
total, today entries).  A missing row contributes (0, 0, []). -/
def tableData (env : Env) (today roll tbl : String) :
    Nat × Nat × List (String × String) :=
  match env.fetchRow tbl roll with
  | none => (0, 0, [])
  | some row =>
    (rowPresent row, rowTotal row,
      match pyGet row today with
      | some v => if v = "P" ∨ v = "A" then [(format_subject_name tbl, v)] else []
      | none => [])

/-- Sum of present counts over a list of subject tables. -/
def tablesPresent (env : Env) (today roll : String) (tables : List String) : Nat :=
  (tables.map (fun t => (tableData env today roll t).1)).sum

/-- Sum of total counts over a list of subject tables. -/
def tablesTotal (env : Env) (today roll : String) (tables : List String) : Nat :=
  (tables.map (fun t => (tableData env today roll t).2.1)).sum

/-- Today entries accumulated over a list of subject tables, in table
listing order. -/
def tablesToday (env : Env) (today roll : String) (tables : List String) :
    List (String × String) :=
  (tables.map (fun t => (tableData env today roll t).2.2)).flatten

/-- The successful result dictionary of `get_student_data`. -/
structure StudentData where
  name : Val
  whatsapp_no : Val
  present : Nat
  total : Nat
  todays_attendance : List (String × String)
deriving DecidableEq

/-- `get_student_data`: identity lookup, then one combined
present/total accumulation over every subject table, plus the today
entries.  A missing identity is the only error outcome. -/
def get_student_data (env : Env) (today roll : String) :
    Except String StudentData :=
  match env.identity roll with
  | none => .error "Student not found in studentsrecord."
  | some info =>
    .ok { name := info.name
          whatsapp_no := info.whatsapp_no
          present := tablesPresent env today roll SUBJECT_TABLES
          total := tablesTotal env today roll SUBJECT_TABLES
          todays_attendance := tablesToday env today roll SUBJECT_TABLES }

/-- Rendering of a nonnegative rational with two decimal places,
modelling the Python float format `:.2f`. -/
def fmt2 (q : ℚ) : String :=
  Nat.repr ((round (q * 100)).toNat / 100) ++ "." ++
    (if (round (q * 100)).toNat % 100 < 10
     then "0" ++ Nat.repr ((round (q * 100)).toNat % 100)
     else Nat.repr ((round (q * 100)).toNat % 100))

/-- Python f-string rendering of a possibly-null value. -/
def showVal (v : Val) : String :=
  match v with
  | some s => s
  | none => "None"

/-- `format_morning_message`: fixed bootstrap message on a zero total,
otherwise the current percentage plus best/worst projections assuming
4 further classes, each rendered to two decimals. -/
def format_morning_message (data : StudentData) : String :=
  if data.total = 0 then
    "☀️ Good Morning " ++ showVal data.name ++
      "! Welcome! Your attendance tracking starts today. Make sure to attend all your classes!"
  else
    "☀️ Good Morning " ++ showVal data.name ++ "!\n\n" ++
    "Your current overall attendance is *" ++
      fmt2 (((data.present : ℚ) / (data.total : ℚ)) * 100) ++ "%* (" ++
      Nat.repr data.present ++ "/" ++ Nat.repr data.total ++ ").\n\n" ++
    "*Today\x27s Prediction (assuming 4 classes):*\n" ++
    "✅ If you attend all classes: *" ++
      fmt2 ((((data.present : ℚ) + 4) / ((data.total : ℚ) + 4)) * 100) ++ "%*\n" ++
    "❌ If you miss all classes: *" ++
      fmt2 (((data.present : ℚ) / ((data.total : ℚ) + 4)) * 100) ++ "%*\n\n" ++
    "Have a productive day at college!"

/-- One line of the evening summary block. -/
def evening_item (item : String × String) : String :=
  "  " ++ (if item.2 = "P" then "✅" else "❌") ++ " " ++ item.1 ++ ": " ++
    item.2 ++ "\n"

/-- Tail of the evening message: the summary block, or the fixed
no-attendance line when nothing was marked today. -/
def evening_tail (todays : List (String × String)) : String :=
  match todays with
  | [] => "No attendance was marked for you today.\n"
  | _ => "*Today\x27s Summary:*\n" ++ String.join (todays.map evening_item)

/-- `format_evening_message`: current percentage (0 when the total is
0, guarded before dividing) and the per-subject summary of today. -/
def format_evening_message (data : StudentData) : String :=
  "🌙 Good Evening " ++ showVal data.name ++ "!\n\n" ++
  "Your updated overall attendance is *" ++
    fmt2 (if 0 < data.total
          then ((data.present : ℚ) / (data.total : ℚ)) * 100 else 0) ++
    "%* (" ++ Nat.repr data.present ++ "/" ++ Nat.repr data.total ++ ").\n\n" ++
  evening_tail data.todays_attendance

/-- Observable external effects of the system. -/
inductive Action where
  | send (dest : String) (body : String)
  | sleep (secs : Nat)
deriving DecidableEq

/-- `send_whatsapp_notification`: no-op on a null or empty number,
otherwise one gateway submission (gateway failures are caught inside
and produce no further effect, so they are not distinguished here). -/
def send_whatsapp_notification (whatsapp_no : Val) (message : String) :
    List Action :=
  match whatsapp_no with
  | none => []
  | some n => if n = "" then [] else [Action.send ("whatsapp:" ++ n) message]

/-- Inbound webhook payload after JSON parsing; every field may be
missing (the handlers read them with `payload.get`). -/
structure Payload where
  type : Option String
  table : Option String
  record : Option Row
  old_record : Option Row
deriving DecidableEq

/-- Identity lookup keyed by a possibly-null roll value; a null key
matches no row. -/
def lookupRoll (env : Env) (v : Val) : Option StudentInfo :=
  match v with
  | some r => env.identity r
  | none => none

/-- `handle_new_student`: on an INSERT payload carrying a truthy roll
number, aggregate, format the evening summary and send; an aggregation
error suppresses the send.  Every branch answers 200 received, modelled
as `.ok` with the emitted actions. -/
def handle_new_student (env : Env) (today : String) (p : Payload) :
    Except Unit (List Action) :=
  if p.type = some "INSERT" then
    match pyGet (p.record.getD []) "Roll_No" with
    | none => .ok []
    | some roll =>
      if roll = "" then .ok []
      else
        match get_student_data env today roll with
        | .error _ => .ok []
        | .ok d => .ok (send_whatsapp_notification d.whatsapp_no
            (format_evening_message d))
  else .ok []

/-- `handle_absent_alert`: on an UPDATE payload whose today column
turned into A from a non-A value, format the subject name from the
payload table and send the alert to the looked-up number.  When the
table field is missing while the transition check passed, the code
applies `.replace` to `None` and raises, modelled as `.error ()` (the
caller then answers 500, not the success body). -/
def handle_absent_alert (env : Env) (today : String) (p : Payload) :
    Except Unit (List Action) :=
  if p.type = some "UPDATE" then
    if pyGet (p.record.getD []) today = some "A" ∧
       ¬ pyGet (p.old_record.getD []) today = some "A" then
      match p.table with
      | none => .error ()
      | some table_name =>
        match lookupRoll env (pyGet (p.record.getD []) "Roll_No") with
        | none => .ok []
        | some info =>
          match info.whatsapp_no with
          | none => .ok []
          | some w =>
            if w = "" then .ok []
            else .ok (send_whatsapp_notification (some w)
              ("🚨 Absent Alert! You have been marked absent in today\x27s *" ++
                format_subject_name table_name ++ "* class."))
    else .ok []
  else .ok []

/-- The listing a scheduled job iterates: roll numbers of identity rows
whose whatsapp number is non-null, in table order (the query filter
`.not_.is_('whatsapp_no', 'null')`). -/
def jobListing (env : Env) : List String :=
  (env.students.filter (fun s => s.2.whatsapp_no.isSome)).map (fun s => s.1)

/-- Loop body of `run_scheduled_job` for one roll number: skip on an
aggregation error or a zero total, otherwise send the formatted message
and pause one time unit. -/
def studentJobActions (env : Env) (today : String)
    (fmt : StudentData → String) (roll : String) : List Action :=
  match get_student_data env today roll with
  | .error _ => []
  | .ok d =>
    if 0 < d.total then
      send_whatsapp_notification d.whatsapp_no (fmt d) ++ [Action.sleep 1]
    else []

/-- `run_scheduled_job`: processes every listed recipient in order; the
per-recipient effects are concatenated (no recipient aborts the rest). -/
def run_scheduled_job (env : Env) (today : String)
    (fmt : StudentData → String) : List Action :=
  ((jobListing env).map (studentJobActions env today fmt)).flatten

/-- Send detector on actions. -/
def isSend : Action → Bool
  | .send _ _ => true
  | .sleep _ => false

/-- Number of gateway submissions in an action trace. -/
def sendCount (l : List Action) : Nat :=
  (l.filter isSend).length

/-- Number of pacing pauses in an action trace. -/
def sleepCount (l : List Action) : Nat :=
  (l.filter (fun a => ! isSend a)).length

/-- True when the scheduled job skips this roll number: aggregation
error, or zero combined total. -/
def jobSkips (env : Env) (today roll : String) : Bool :=
  match get_student_data env today roll with
  | .error _ => true
  | .ok d => decide (d.total = 0)

/-- Spec-side kind tag: the spec classifies a subject source as lab by
the suffix naming convention of its key. -/
def is_lab_source (t : String) : Bool :=
  "_lab".toList.isSuffixOf t.toList

/-- Spec-side bucket: the theory subject tables. -/
def theory_tables : List String :=
  SUBJECT_TABLES.filter (fun t => ! is_lab_source t)

/-- Spec-side bucket: the lab subject tables. -/
def lab_tables : List String :=
  SUBJECT_TABLES.filter is_lab_source

/-- Spec-side definition, per the spec wording of a separate theory
bucket: present count restricted to theory tables.  The code keeps no
such bucket; this is used to compare the code against the spec. -/
def spec_theoryPresent (env : Env) (today roll : String) : Nat :=
  tablesPresent env today roll theory_tables

/-- Spec-side definition: total count restricted to theory tables. -/
def spec_theoryTotal (env : Env) (today roll : String) : Nat :=
  tablesTotal env today roll theory_tables

/-- Spec-side definition: present count restricted to lab tables. -/
def spec_labPresent (env : Env) (today roll : String) : Nat :=
  tablesPresent env today roll lab_tables

/-- Spec-side definition: total count restricted to lab tables. -/
def spec_labTotal (env : Env) (today roll : String) : Nat :=
  tablesTotal env today roll lab_tables

/-- Concrete today string used by the closed instances (pattern
DD_MM_YYYY, two underscores). -/
def todayStr : String := "12_10_2026"

/-- Environment with no students and no subject rows. -/
def env0 : Env := ⟨[], fun _ _ => none⟩

/-- Identity record of the registered-but-unmarked student. -/
def info2 : StudentInfo := ⟨some "Stu", some "+912"⟩

/-- Environment with one registered student and no attendance rows in
any subject table. -/
def env2 : Env := ⟨[("r2", info2)], fun _ _ => none⟩

/-- Theory row for the mixed theory/lab environment: two dated marks,
one P and one A. -/
def row1main : Row :=
  [("Roll_No", some "r1"), ("01_01_2025", some "P"), ("02_01_2025", some "A")]

/-- Environment where student r1 has 1/2 marks in a theory table and
1/1 marks in a lab table. -/
def env1 : Env :=
  ⟨[("r1", ⟨some "S", some "+911"⟩)],
   fun t r =>
     if t = "data_structures_and_algorithms" ∧ r = "r1" then some row1main
     else if t = "data_structures_and_algorithms_lab" ∧ r = "r1" then
       some [("01_01_2025", some "P")]
     else none⟩

/-- Environment with two registered recipients: s1 has one theory mark,
s2 has one lab mark only (theory total zero, combined total one). -/
def env4 : Env :=
  ⟨[("s1", ⟨some "A1", some "+1"⟩), ("s2", ⟨some "A2", some "+2"⟩)],
   fun t r =>
     if t = "data_structures_and_algorithms" ∧ r = "s1" then
       some [("01_01_2025", some "P")]
     else if t = "data_structures_and_algorithms_lab" ∧ r = "s2" then
       some [("01_01_2025", some "P")]
     else none⟩

/-- Updated row of the absence payload aimed at the identity table. -/
def rec10 : Row := [("Roll_No", some "r2"), ("12_10_2026", some "A")]

theorem sum_map_filter_split {α : Type} (l : List α) (f : α → Nat) (p : α → Bool) :
    (l.map f).sum =
      ((l.filter p).map f).sum + ((l.filter (fun a => ! p a)).map f).sum := by
  induction l with
  | nil => simp
  | cons a l ih =>
    cases h : p a <;> simp [List.filter_cons, h, ih] <;> omega

theorem length_filter_mono {α : Type} (l : List α) (p q : α → Bool)
    (h : ∀ a, p a = true → q a = true) :
    (l.filter p).length ≤ (l.filter q).length := by
  induction l with
  | nil => simp
  | cons a l ih =>
    cases hp : p a
    · cases hq : q a
      · simpa [List.filter_cons, hp, hq] using ih
      · simp only [List.filter_cons, hp, hq]
        simp only [Bool.false_eq_true, if_false, if_true, List.length_cons]
        exact Nat.le_succ_of_le ih
    · have hq := h a hp
      simp only [List.filter_cons, hp, hq, if_true, List.length_cons]
      exact Nat.succ_le_succ ih

theorem fmt2_eq (q : ℚ) (n : ℕ) (s : String) (h : round (q * 100) = (n : ℤ))
    (hs : Nat.repr (n / 100) ++ "." ++
      (if n % 100 < 10 then "0" ++ Nat.repr (n % 100) else Nat.repr (n % 100)) = s) :
    fmt2 q = s := by
  unfold fmt2
  rw [h, Int.toNat_natCast, hs]

theorem rowPresent_le_rowTotal (row : Row) : rowPresent row ≤ rowTotal row := by
  apply length_filter_mono
  intro kv h
  simp only [Bool.and_eq_true, beq_iff_eq] at h
  simp [h.1, recognized, h.2]

theorem tableData_present_le_total (env : Env) (today roll tbl : String) :
    (tableData env today roll tbl).1 ≤ (tableData env today roll tbl).2.1 := by
  unfold tableData
  cases h : env.fetchRow tbl roll <;> simp [rowPresent_le_rowTotal]

theorem tablesPresent_le_tablesTotal (env : Env) (today roll : String)
    (tables : List String) :
    tablesPresent env today roll tables ≤ tablesTotal env today roll tables := by
  unfold tablesPresent tablesTotal
  exact List.sum_le_sum fun t _ => tableData_present_le_total env today roll t

theorem tablesPresent_split (env : Env) (today roll : String) :
    tablesPresent env today roll SUBJECT_TABLES =
      spec_theoryPresent env today roll + spec_labPresent env today roll := by
  unfold spec_theoryPresent spec_labPresent tablesPresent theory_tables lab_tables
  rw [sum_map_filter_split SUBJECT_TABLES _ (fun t => ! is_lab_source t)]
  simp [Bool.not_not]

theorem tablesTotal_split (env : Env) (today roll : String) :
    tablesTotal env today roll SUBJECT_TABLES =
      spec_theoryTotal env today roll + spec_labTotal env today roll := by
  unfold spec_theoryTotal spec_labTotal tablesTotal theory_tables lab_tables
  rw [sum_map_filter_split SUBJECT_TABLES _ (fun t => ! is_lab_source t)]
  simp [Bool.not_not]

/-- C6: a column contributes to the totals exactly when its key holds
two underscore separators and its value is one of the two recognized
marks (anything else adds nothing, so it is never counted as absent);
consequently present never exceeds total, and each bucket total equals
the count of dated recognized-mark columns over that bucket's tables,
for the theory and lab buckets independently. -/
theorem C6_counting_rule :
    (∀ (k : String) (v : Val) (row : Row),
        rowTotal ((k, v) :: row) =
          (if (is_date_col k && recognized v) = true then 1 else 0) + rowTotal row)
  ∧ (∀ row : Row, rowPresent row ≤ rowTotal row)
  ∧ (∀ (env : Env) (today roll : String),
        spec_theoryPresent env today roll ≤ spec_theoryTotal env today roll ∧
        spec_labPresent env today roll ≤ spec_labTotal env today roll)
  ∧ (∀ (env : Env) (today roll : String),
        spec_theoryTotal env today roll =
          (theory_tables.map (fun t =>
            match env.fetchRow t roll with
            | none => 0
            | some row => rowTotal row)).sum ∧
        spec_labTotal env today roll =
          (lab_tables.map (fun t =>
            match env.fetchRow t roll with
            | none => 0
            | some row => rowTotal row)).sum) := by
  refine ⟨?_, rowPresent_le_rowTotal, ?_, ?_⟩
  · intro k v row
    unfold rowTotal
    cases h : (is_date_col k && recognized v) <;>
      simp [List.filter_cons, h, Nat.add_comm]
  · intro env today roll
    exact ⟨tablesPresent_le_tablesTotal env today roll theory_tables,
           tablesPresent_le_tablesTotal env today roll lab_tables⟩
  · intro env today roll
    have hfun : (fun t => (tableData env today roll t).2.1) =
        (fun t => match env.fetchRow t roll with
                  | none => 0
                  | some row => rowTotal row) := by
      funext t
      cases h : env.fetchRow t roll <;> simp [tableData, h]
    constructor <;>
      · simp only [spec_theoryTotal, spec_labTotal, tablesTotal]
        rw [hfun]

/-- C9: for a student present in the identity source, a subject source
with no row (or a failed per-source fetch, both modelled as `none`)
contributes zero to the counts and nothing to the today entries and
never aborts the aggregation: the aggregation returns its error result
exactly when the identity lookup itself fails. -/
theorem C9_partial_data :
    (∀ (env : Env) (today roll : String),
        (∃ e, get_student_data env today roll = .error e) ↔
          env.identity roll = none)
  ∧ (∀ (env : Env) (today roll tbl : String),
        env.fetchRow tbl roll = none →
        tableData env today roll tbl = (0, 0, [])) := by
  constructor
  · intro env today roll
    unfold get_student_data
    cases h : env.identity roll <;> simp [h]
  · intro env today roll tbl h
    simp [tableData, h]

/-- C9 witness: in the environment with no data, the aggregation for a
concrete roll number errors, and a concrete missing subject row
contributes nothing. -/
theorem C9_witness :
    tableData env0 todayStr "rX" "data_structures_and_algorithms" = (0, 0, []) ∧
    (∃ e, get_student_data env0 todayStr "rX" = .error e) :=
  ⟨C9_partial_data.2 env0 todayStr "rX" "data_structures_and_algorithms" rfl,
   (C9_partial_data.1 env0 todayStr "rX").mpr rfl⟩

/-- C1 counterexample: with one theory table holding 1 present of 2
marks and one lab table holding 1 present of 1 mark, the aggregator
reports the single combined pair 2/3 (so lab marks land in the same
bucket), and the morning formatter renders 66.67 percent from the
combined counts, not the 50.00 percent that theory-only math gives. -/
theorem C1_counterexample :
    get_student_data env1 todayStr "r1" = .ok ⟨some "S", some "+911", 2, 3, []⟩ ∧
    spec_theoryPresent env1 todayStr "r1" = 1 ∧
    spec_theoryTotal env1 todayStr "r1" = 2 ∧
    spec_labTotal env1 todayStr "r1" = 1 ∧
    fmt2 (((1 : ℚ) / 2) * 100) = "50.00" ∧
    format_morning_message ⟨some "S", some "+911", 2, 3, []⟩ =
      "☀️ Good Morning S!\n\nYour current overall attendance is *66.67%* (2/3).\n\n*Today\x27s Prediction (assuming 4 classes):*\n✅ If you attend all classes: *85.71%*\n❌ If you miss all classes: *28.57%*\n\nHave a productive day at college!" := by
  refine ⟨rfl, by decide, by decide, by decide, ?_, ?_⟩
  · exact fmt2_eq _ 5000 _ (by rw [round_eq]; norm_num) rfl
  · have e1 : fmt2 (((2 : ℚ) / (3 : ℚ)) * 100) = "66.67" :=
      fmt2_eq _ 6667 _ (by rw [round_eq]; norm_num) rfl
    have e2 : fmt2 ((((2 : ℚ) + 4) / ((3 : ℚ) + 4)) * 100) = "85.71" :=
      fmt2_eq _ 8571 _ (by rw [round_eq]; norm_num) rfl
    have e3 : fmt2 (((2 : ℚ) / ((3 : ℚ) + 4)) * 100) = "28.57" :=
      fmt2_eq _ 2857 _ (by rw [round_eq]; norm_num) rfl
    simp [format_morning_message, showVal, e1, e2, e3]
    rfl

/-- C1 amended: the aggregator accumulates every counted mark into one
combined present/total pair regardless of the source's lab or theory
kind, and that pair (which the formatters' percentage math consumes)
decomposes as the sum of the spec-side theory and lab buckets. -/
theorem C1_single_bucket (env : Env) (today roll : String) (info : StudentInfo)
    (h : env.identity roll = some info) :
    get_student_data env today roll =
      .ok { name := info.name
            whatsapp_no := info.whatsapp_no
            present := spec_theoryPresent env today roll + spec_labPresent env today roll
            total := spec_theoryTotal env today roll + spec_labTotal env today roll
            todays_attendance := tablesToday env today roll SUBJECT_TABLES } := by
  unfold get_student_data
  rw [h, ← tablesPresent_split, ← tablesTotal_split]

/-- C1 witness: the combined-bucket description instantiated in the
environment with one registered student. -/
theorem C1_witness :
    get_student_data env2 todayStr "r2" =
      .ok { name := some "Stu"
            whatsapp_no := some "+912"
            present := spec_theoryPresent env2 todayStr "r2" + spec_labPresent env2 todayStr "r2"
            total := spec_theoryTotal env2 todayStr "r2" + spec_labTotal env2 todayStr "r2"
            todays_attendance := tablesToday env2 todayStr "r2" SUBJECT_TABLES } :=
  C1_single_bucket env2 todayStr "r2" info2 rfl

/-- C5: the morning formatter returns the fixed tracking-starts-today
message whenever the total is 0 (no division happens on that branch);
otherwise it renders current, best-case and worst-case percentages from
present/total, (present+4)/(total+4) and present/(total+4), each to two
decimals; at present=18, total=20 the rendered values are 90.00, 91.67
and 75.00 percent. -/
theorem C5_morning_formatter :
    (∀ (nm w : Val) (pr : Nat) (tod : List (String × String)),
        format_morning_message ⟨nm, w, pr, 0, tod⟩ =
          "☀️ Good Morning " ++ showVal nm ++
            "! Welcome! Your attendance tracking starts today. Make sure to attend all your classes!")
  ∧ (∀ (nm w : Val) (pr t : Nat) (tod : List (String × String)),
        format_morning_message ⟨nm, w, pr, t + 1, tod⟩ =
          "☀️ Good Morning " ++ showVal nm ++ "!\n\n" ++
          "Your current overall attendance is *" ++
            fmt2 (((pr : ℚ) / ((t + 1 : ℕ) : ℚ)) * 100) ++ "%* (" ++
            Nat.repr pr ++ "/" ++ Nat.repr (t + 1) ++ ").\n\n" ++
          "*Today\x27s Prediction (assuming 4 classes):*\n" ++
          "✅ If you attend all classes: *" ++
            fmt2 ((((pr : ℚ) + 4) / (((t + 1 : ℕ) : ℚ) + 4)) * 100) ++ "%*\n" ++
          "❌ If you miss all classes: *" ++
            fmt2 (((pr : ℚ) / (((t + 1 : ℕ) : ℚ) + 4)) * 100) ++ "%*\n\n" ++
          "Have a productive day at college!")
  ∧ format_morning_message ⟨some "S", some "+91", 18, 20, []⟩ =
      "☀️ Good Morning S!\n\nYour current overall attendance is *90.00%* (18/20).\n\n*Today\x27s Prediction (assuming 4 classes):*\n✅ If you attend all classes: *91.67%*\n❌ If you miss all classes: *75.00%*\n\nHave a productive day at college!" := by
  refine ⟨?_, ?_, ?_⟩
  · intro nm w pr tod
    simp [format_morning_message]
  · intro nm w pr t tod
    simp [format_morning_message]
  · have e1 : fmt2 (((18 : ℚ) / (20 : ℚ)) * 100) = "90.00" :=
      fmt2_eq _ 9000 _ (by rw [round_eq]; norm_num) rfl
    have e2 : fmt2 ((((18 : ℚ) + 4) / ((20 : ℚ) + 4)) * 100) = "91.67" :=
      fmt2_eq _ 9167 _ (by rw [round_eq]; norm_num) rfl
    have e3 : fmt2 (((18 : ℚ) / ((20 : ℚ) + 4)) * 100) = "75.00" :=
      fmt2_eq _ 7500 _ (by rw [round_eq]; norm_num) rfl
    simp [format_morning_message, showVal, e1, e2, e3]
    rfl

/-- C8: the evening formatter renders 0.00 percent when the total is 0
(the division is guarded, never reached on that branch) and
present/total otherwise; it lists every today entry through
`evening_tail`, and renders the verbatim no-attendance line when the
list is empty. -/
theorem C8_evening_formatter :
    (∀ (nm w : Val) (pr : Nat) (tod : List (String × String)),
        format_evening_message ⟨nm, w, pr, 0, tod⟩ =
          "🌙 Good Evening " ++ showVal nm ++ "!\n\n" ++
          "Your updated overall attendance is *" ++ "0.00" ++ "%* (" ++
            Nat.repr pr ++ "/" ++ Nat.repr 0 ++ ").\n\n" ++ evening_tail tod)
  ∧ (∀ (nm w : Val) (pr t : Nat) (tod : List (String × String)),
        format_evening_message ⟨nm, w, pr, t + 1, tod⟩ =
          "🌙 Good Evening " ++ showVal nm ++ "!\n\n" ++
          "Your updated overall attendance is *" ++
            fmt2 (((pr : ℚ) / ((t + 1 : ℕ) : ℚ)) * 100) ++ "%* (" ++
            Nat.repr pr ++ "/" ++ Nat.repr (t + 1) ++ ").\n\n" ++ evening_tail tod)
  ∧ (∀ (nm w : Val) (pr t : Nat), ∃ s,
        format_evening_message ⟨nm, w, pr, t, []⟩ =
          s ++ "No attendance was marked for you today.\n")
  ∧ (∀ (x : String × String) (xs : List (String × String)),
        evening_tail (x :: xs) =
          "*Today\x27s Summary:*\n" ++ String.join ((x :: xs).map evening_item)) := by
  refine ⟨?_, ?_, ?_, ?_⟩
  · intro nm w pr tod
    have h0 : fmt2 (0 : ℚ) = "0.00" :=
      fmt2_eq _ 0 _ (by rw [round_eq]; norm_num) rfl
    simp [format_evening_message, h0]
  · intro nm w pr t tod
    simp [format_evening_message]
  · intro nm w pr t
    exact ⟨_, rfl⟩
  · intro x xs
    rfl

theorem newStudentRun (env : Env) (today : String) (tbl : Option String)
    (rcd : Row) (old : Option Row) (roll : String)
    (h1 : pyGet rcd "Roll_No" = some roll) (h2 : roll ≠ "") :
    handle_new_student env today ⟨some "INSERT", tbl, some rcd, old⟩ =
      .ok (match get_student_data env today roll with
           | .error _ => []
           | .ok d => send_whatsapp_notification d.whatsapp_no
               (format_evening_message d)) := by
  cases hgs : get_student_data env today roll with
  | error e => simp [handle_new_student, h1, h2, hgs]
  | ok d => simp [handle_new_student, h1, h2, hgs]

/-- C2 counterexample: a registered student with no attendance rows in
any subject table (zero data, total 0) is aggregated without an error
outcome, and the registration handler still sends the evening summary
instead of suppressing it. -/
theorem C2_counterexample :
    get_student_data env2 todayStr "r2" = .ok ⟨some "Stu", some "+912", 0, 0, []⟩ ∧
    handle_new_student env2 todayStr
        ⟨some "INSERT", none, some [("Roll_No", some "r2")], none⟩ =
      .ok [Action.send "whatsapp:+912"
        "🌙 Good Evening Stu!\n\nYour updated overall attendance is *0.00%* (0/0).\n\nNo attendance was marked for you today.\n"] := by
  refine ⟨rfl, ?_⟩
  have h := newStudentRun env2 todayStr none [("Roll_No", some "r2")] none "r2" rfl
    (by decide)
  have h0 : fmt2 (0 : ℚ) = "0.00" :=
    fmt2_eq _ 0 _ (by rw [round_eq]; norm_num) rfl
  have hmsg : format_evening_message ⟨some "Stu", some "+912", 0, 0, []⟩ =
      "🌙 Good Evening Stu!\n\nYour updated overall attendance is *0.00%* (0/0).\n\nNo attendance was marked for you today.\n" := by
    simp [format_evening_message, showVal, evening_tail, h0]
    rfl
  rw [h]
  simp only [show get_student_data env2 todayStr "r2" =
    .ok ⟨some "Stu", some "+912", 0, 0, []⟩ from rfl]
  simp [send_whatsapp_notification, hmsg]

/-- C2 amended: on an INSERT payload carrying a truthy roll number, the
registration handler runs the aggregation, formats the evening summary
and hands it to the notifier; only an error outcome of the aggregation
(identity not found) suppresses the send, while a zero-data success
outcome still sends. -/
theorem C2_registration_dispatch (env : Env) (today : String) (rcd : Row)
    (roll : String) (h1 : pyGet rcd "Roll_No" = some roll) (h2 : roll ≠ "") :
    handle_new_student env today ⟨some "INSERT", none, some rcd, none⟩ =
      .ok (match get_student_data env today roll with
           | .error _ => []
           | .ok d => send_whatsapp_notification d.whatsapp_no
               (format_evening_message d)) :=
  newStudentRun env today none rcd none roll h1 h2

/-- C2 witness: a roll number absent from the identity source makes the
registration handler answer success with no send. -/
theorem C2_witness :
    handle_new_student env0 todayStr
        ⟨some "INSERT", none, some [("Roll_No", some "rX")], none⟩ = .ok [] := by
  have h := C2_registration_dispatch env0 todayStr [("Roll_No", some "rX")] "rX" rfl
    (by decide)
  exact h

theorem absentRun (env : Env) (today tbl : String) (rcd old : Row) :
    handle_absent_alert env today ⟨some "UPDATE", some tbl, some rcd, some old⟩ =
      .ok (if pyGet rcd today = some "A" ∧ ¬ pyGet old today = some "A" then
             match lookupRoll env (pyGet rcd "Roll_No") with
             | none => []
             | some info =>
               match info.whatsapp_no with
               | none => []
               | some w =>
                 if w = "" then []
                 else
                   [Action.send ("whatsapp:" ++ w)
                     ("🚨 Absent Alert! You have been marked absent in today\x27s *" ++
                       format_subject_name tbl ++ "* class.")]
           else []) := by
  by_cases h2 : pyGet rcd today = some "A" ∧ ¬ pyGet old today = some "A"
  · simp only [handle_absent_alert, Option.getD_some, if_pos h2]
    simp only [reduceIte]
    cases hlk : lookupRoll env (pyGet rcd "Roll_No") with
    | none => simp [hlk]
    | some info =>
      cases hwa : info.whatsapp_no with
      | none => simp [hlk, hwa]
      | some w =>
        by_cases hw : w = "" <;>
          simp [hlk, hwa, hw, send_whatsapp_notification]
  · simp [handle_absent_alert, h2]

theorem absent_noTrans (env : Env) (today tbl : String) (rcd old : Row)
    (h : ¬ (pyGet rcd today = some "A" ∧ ¬ pyGet old today = some "A")) :
    handle_absent_alert env today ⟨some "UPDATE", some tbl, some rcd, some old⟩ =
      .ok [] := by
  rw [absentRun, if_neg h]

theorem absent_noInfo (env : Env) (today tbl : String) (rcd old : Row)
    (h2 : pyGet rcd today = some "A" ∧ ¬ pyGet old today = some "A")
    (hlk : lookupRoll env (pyGet rcd "Roll_No") = none) :
    handle_absent_alert env today ⟨some "UPDATE", some tbl, some rcd, some old⟩ =
      .ok [] := by
  rw [absentRun, if_pos h2, hlk]

theorem absent_noNum (env : Env) (today tbl : String) (rcd old : Row)
    (info : StudentInfo)
    (h2 : pyGet rcd today = some "A" ∧ ¬ pyGet old today = some "A")
    (hlk : lookupRoll env (pyGet rcd "Roll_No") = some info)
    (hwa : info.whatsapp_no = none) :
    handle_absent_alert env today ⟨some "UPDATE", some tbl, some rcd, some old⟩ =
      .ok [] := by
  rw [absentRun, if_pos h2, hlk]
  dsimp only
  rw [hwa]

theorem absent_emptyNum (env : Env) (today tbl : String) (rcd old : Row)
    (info : StudentInfo)
    (h2 : pyGet rcd today = some "A" ∧ ¬ pyGet old today = some "A")
    (hlk : lookupRoll env (pyGet rcd "Roll_No") = some info)
    (hwa : info.whatsapp_no = some "") :
    handle_absent_alert env today ⟨some "UPDATE", some tbl, some rcd, some old⟩ =
      .ok [] := by
  rw [absentRun, if_pos h2, hlk]
  dsimp only
  rw [hwa]
  simp

theorem absent_fires (env : Env) (today tbl : String) (rcd old : Row)
    (info : StudentInfo) (w : String)
    (ha : pyGet rcd today = some "A") (hna : ¬ pyGet old today = some "A")
    (hlk : lookupRoll env (pyGet rcd "Roll_No") = some info)
    (hwa : info.whatsapp_no = some w) (hw : w ≠ "") :
    handle_absent_alert env today ⟨some "UPDATE", some tbl, some rcd, some old⟩ =
      .ok [Action.send ("whatsapp:" ++ w)
        ("🚨 Absent Alert! You have been marked absent in today\x27s *" ++
          format_subject_name tbl ++ "* class.")] := by
  rw [absentRun, if_pos ⟨ha, hna⟩, hlk]
  dsimp only
  rw [hwa]
  dsimp only
  rw [if_neg hw]

/-- C3: against an UPDATE payload with all fields present, the absence
handler emits a send exactly when the new row holds the absence mark A
at the today column, the old row does not, and the address lookup by
the new row roll number yields a truthy whatsapp number; so it fires
on the P-to-A edge and not on A-to-A or on updates leaving the today
column unchanged. -/
theorem C3_edge_trigger (env : Env) (today tbl : String) (rcd old : Row) :
    (∃ acts, handle_absent_alert env today
        ⟨some "UPDATE", some tbl, some rcd, some old⟩ = .ok acts ∧ acts ≠ []) ↔
      (pyGet rcd today = some "A" ∧ ¬ pyGet old today = some "A" ∧
        ∃ info w, lookupRoll env (pyGet rcd "Roll_No") = some info ∧
          info.whatsapp_no = some w ∧ w ≠ "") := by
  constructor
  · rintro ⟨acts, hacts, hne⟩
    by_cases h2 : pyGet rcd today = some "A" ∧ ¬ pyGet old today = some "A"
    · cases hlk : lookupRoll env (pyGet rcd "Roll_No") with
      | none =>
        rw [absent_noInfo env today tbl rcd old h2 hlk] at hacts
        simp only [Except.ok.injEq] at hacts
        exact absurd hacts.symm hne
      | some info =>
        cases hwa : info.whatsapp_no with
        | none =>
          rw [absent_noNum env today tbl rcd old info h2 hlk hwa] at hacts
          simp only [Except.ok.injEq] at hacts
          exact absurd hacts.symm hne
        | some w =>
          by_cases hw : w = ""
          · subst hw
            rw [absent_emptyNum env today tbl rcd old info h2 hlk hwa] at hacts
            simp only [Except.ok.injEq] at hacts
            exact absurd hacts.symm hne
          · exact ⟨h2.1, h2.2, info, w, rfl, hwa, hw⟩
    · rw [absent_noTrans env today tbl rcd old h2] at hacts
      simp only [Except.ok.injEq] at hacts
      exact absurd hacts.symm hne
  · rintro ⟨ha, hna, info, w, hlk, hwa, hw⟩
    exact ⟨_, absent_fires env today tbl rcd old info w ha hna hlk hwa hw, by simp⟩

/-- C10: the absence handler never compares the payload table against
the configured subject list: for any table name, including the
student-identity table which is not in the subject list, a payload
satisfying the absence transition triggers the alert naming that
table. -/
theorem C10_no_table_check :
    (∀ (env : Env) (today tbl : String) (rcd old : Row) (info : StudentInfo)
        (w : String),
      pyGet rcd today = some "A" → ¬ pyGet old today = some "A" →
      lookupRoll env (pyGet rcd "Roll_No") = some info →
      info.whatsapp_no = some w → w ≠ "" →
      handle_absent_alert env today ⟨some "UPDATE", some tbl, some rcd, some old⟩ =
        .ok [Action.send ("whatsapp:" ++ w)
          ("🚨 Absent Alert! You have been marked absent in today\x27s *" ++
            format_subject_name tbl ++ "* class.")])
  ∧ ¬ "studentsrecord" ∈ SUBJECT_TABLES := by
  constructor
  · intro env today tbl rcd old info w ha hna hlk hwa hw
    exact absent_fires env today tbl rcd old info w ha hna hlk hwa hw
  · decide

/-- C10 witness: a transition payload naming the identity table itself
(outside the subject list) fires the alert with that table name. -/
theorem C10_witness :
    handle_absent_alert env2 todayStr
        ⟨some "UPDATE", some "studentsrecord", some rec10, some []⟩ =
      .ok [Action.send "whatsapp:+912"
        "🚨 Absent Alert! You have been marked absent in today\x27s *Studentsrecord* class."] := by
  have h := C10_no_table_check.1 env2 todayStr "studentsrecord" rec10 [] info2 "+912"
    rfl (by decide) rfl rfl (by decide)
  exact h.trans (by rfl)

/-- C7 counterexample: an UPDATE payload that satisfies the absence
transition at the today column but lacks the table field makes the
absence endpoint raise instead of answering the success body. -/
theorem C7_counterexample :
    handle_absent_alert env0 todayStr
      ⟨some "UPDATE", none, some [("12_10_2026", some "A")], none⟩ = .error () := rfl

/-- C7 amended: the registration endpoint answers success for every
payload; the absence endpoint answers success for every payload except
the UPDATE payloads that satisfy the today-column absence transition
while lacking the table field, on which it faults. -/
theorem C7_endpoint_status (env : Env) (today : String) (p : Payload) :
    (handle_new_student env today p).isOk = true ∧
    ((handle_absent_alert env today p).isOk = true ↔
      ¬ (p.type = some "UPDATE" ∧ pyGet (p.record.getD []) today = some "A" ∧
         ¬ pyGet (p.old_record.getD []) today = some "A" ∧ p.table = none)) := by
  constructor
  · unfold handle_new_student
    repeat' split
    all_goals rfl
  · by_cases h1 : p.type = some "UPDATE"
    · unfold handle_absent_alert
      rw [if_pos h1]
      by_cases h2 : pyGet (p.record.getD []) today = some "A" ∧
          ¬ pyGet (p.old_record.getD []) today = some "A"
      · rw [if_pos h2]
        cases htb : p.table with
        | none =>
          dsimp only
          refine iff_of_false (by decide) ?_
          intro hc
          exact hc ⟨h1, h2.1, h2.2, rfl⟩
        | some tbl =>
          dsimp only
          refine iff_of_true ?_ ?_
          · repeat' split
            all_goals rfl
          · intro hc
            exact Option.noConfusion hc.2.2.2
      · rw [if_neg h2]
        refine iff_of_true rfl ?_
        intro hc
        exact h2 ⟨hc.2.1, hc.2.2.1⟩
    · unfold handle_absent_alert
      rw [if_neg h1]
      refine iff_of_true rfl ?_
      intro hc
      exact h1 hc.1

theorem sleepCount_append (a b : List Action) :
    sleepCount (a ++ b) = sleepCount a + sleepCount b := by
  simp [sleepCount, List.filter_append]

theorem sleepCount_send_block (v : Val) (m : String) :
    sleepCount (send_whatsapp_notification v m ++ [Action.sleep 1]) = 1 := by
  cases v with
  | none => rfl
  | some n =>
    by_cases h : n = "" <;>
      simp [send_whatsapp_notification, h, sleepCount, isSend]

theorem studentJobActions_empty_iff (env : Env) (today : String)
    (fmt : StudentData → String) (roll : String) :
    studentJobActions env today fmt roll = [] ↔
      jobSkips env today roll = true := by
  cases h : get_student_data env today roll with
  | error e => simp [studentJobActions, jobSkips, h]
  | ok d =>
    by_cases ht : 0 < d.total
    · simp [studentJobActions, jobSkips, h, ht]
      omega
    · simp [studentJobActions, jobSkips, h, ht]
      omega

theorem sleepCount_block (env : Env) (today : String)
    (fmt : StudentData → String) (roll : String) :
    sleepCount (studentJobActions env today fmt roll) =
      if jobSkips env today roll = true then 0 else 1 := by
  cases h : get_student_data env today roll with
  | error e => simp [studentJobActions, jobSkips, h, sleepCount]
  | ok d =>
    by_cases ht : 0 < d.total
    · have hd : decide (d.total = 0) = false := by
        simp
        omega
      simp [studentJobActions, jobSkips, h, ht, hd, sleepCount_send_block]
    · have h0 : d.total = 0 := by omega
      simp [studentJobActions, jobSkips, h, ht, h0, sleepCount]

theorem sleepCount_job (env : Env) (today : String) (fmt : StudentData → String)
    (rolls : List String) :
    sleepCount ((rolls.map (studentJobActions env today fmt)).flatten) =
      (rolls.filter (fun r => ! jobSkips env today r)).length := by
  induction rolls with
  | nil => rfl
  | cons r rs ih =>
    simp only [List.map_cons, List.flatten_cons, sleepCount_append,
      List.filter_cons, ih, sleepCount_block]
    cases hs : jobSkips env today r <;> simp [hs] <;> omega

/-- C4 counterexample: a recipient whose marks all sit in a lab table
has theory total 0 but combined total 1, so the job sends to both of
the two listed recipients instead of exactly one. -/
theorem C4_counterexample :
    sendCount (run_scheduled_job env4 todayStr format_morning_message) = 2 ∧
    spec_theoryTotal env4 todayStr "s2" = 0 ∧
    (run_scheduled_job env4 todayStr format_morning_message).any
      (fun a => match a with
        | .send d _ => d == "whatsapp:+2"
        | .sleep _ => false) = true := by
  refine ⟨by decide, by decide, by decide⟩

/-- C4 amended: a scheduled job firing walks the listing of identity
records with a non-null address in order, concatenating per-recipient
effects so no recipient aborts the rest; a recipient produces no effect
exactly when aggregation errored or the combined (theory plus lab)
total is 0, and the one-unit pacing pause occurs exactly once per
non-skipped recipient (it wraps the dispatch attempt, which is an
actual send whenever the stored address is truthy). -/
theorem C4_job_dispatch (env : Env) (today : String)
    (fmt : StudentData → String) :
    run_scheduled_job env today fmt =
        ((jobListing env).map (studentJobActions env today fmt)).flatten
    ∧ (∀ roll, studentJobActions env today fmt roll = [] ↔
        jobSkips env today roll = true)
    ∧ sleepCount (run_scheduled_job env today fmt) =
        ((jobListing env).filter (fun r => ! jobSkips env today r)).length :=
  ⟨rfl, fun roll => studentJobActions_empty_iff env today fmt roll,
   sleepCount_job env today fmt (jobListing env)⟩

end AttendanceApp
